import Mathlib

/-!
Verification development for the fantasy sit/start scoring pipeline:
the scoring library (netlify/functions/_lib/ff-scoring.mjs), the odds
helpers calculateScriptLean and getGameContext in the odds library, the
league-settings normalization (getLeagueSettings in the Yahoo client),
and the orchestrating run handler. JS numbers are modelled as exact
rationals, except the z-score computation, which needs a square root
and is modelled over the reals.
-/

namespace FantasyAI

/-- Implied team totals attached to a game line (built by getWeekLines). -/
structure ImpliedTotals where
  homeIT : ℚ
  awayIT : ℚ
deriving DecidableEq

/-- Normalized game line from getWeekLines in the odds library. The spread
and total may be null in the source, and implied totals are only built when
both are present and truthy. -/
structure GameContext where
  home_team : String
  away_team : String
  spread : Option ℚ
  total : Option ℚ
  implied_totals : Option ImpliedTotals
deriving DecidableEq

/-- Sparse per-player props record: exactly the numeric fields the scoring
code reads, each possibly absent. The field otherKeys counts any further
keys of the JS object that the scoring code never reads; it only matters
for the emptiness test. -/
structure PlayerProps where
  pass_yds : Option ℚ := none
  pass_tds : Option ℚ := none
  interceptions : Option ℚ := none
  rush_yds : Option ℚ := none
  rec_yds : Option ℚ := none
  receptions : Option ℚ := none
  anytime_td_prob : Option ℚ := none
  two_plus_td_prob : Option ℚ := none
  otherKeys : Nat := 0
deriving DecidableEq

/-- Models the JS test Object.keys(props).length === 0. -/
def PlayerProps.isEmpty (p : PlayerProps) : Bool :=
  p.pass_yds.isNone && p.pass_tds.isNone && p.interceptions.isNone &&
  p.rush_yds.isNone && p.rec_yds.isNone && p.receptions.isNone &&
  p.anytime_td_prob.isNone && p.two_plus_td_prob.isNone && p.otherKeys == 0

/-- JS truthiness of an optional numeric field: absent (undefined or null)
and 0 are both falsy. -/
def qTruthy : Option ℚ → Bool
  | none => false
  | some v => v != 0

/-- Strict less-than against an optional value; false when the value is
absent, matching the JS comparison semantics at the thresholds used here. -/
def optLt (o : Option ℚ) (c : ℚ) : Bool :=
  match o with
  | none => false
  | some v => v < c

/-- Non-strict less-than against an optional value; false when absent. -/
def optLe (o : Option ℚ) (c : ℚ) : Bool :=
  match o with
  | none => false
  | some v => v ≤ c

/-- Non-strict greater-than against an optional value; false when absent. -/
def optGe (o : Option ℚ) (c : ℚ) : Bool :=
  match o with
  | none => false
  | some v => c ≤ v

/-- League scoring weights (the ten-field record produced by
getLeagueSettings and consumed by the whole scoring pipeline). -/
structure ScoringRules where
  passYards : ℚ
  passTD : ℚ
  passInt : ℚ
  rushYards : ℚ
  rushTD : ℚ
  recYards : ℚ
  reception : ℚ
  recTD : ℚ
  fumble : ℚ
  twoPtConversion : ℚ
deriving DecidableEq

/-- Source: FALLBACK_BASELINES[position] with the JS fallback of 5 for an
unmapped position (ff-scoring.mjs lines 37 to 44 and 129). -/
def fallbackBaseline (position : String) : ℚ :=
  if position = "QB" then 15
  else if position = "RB" then 10
  else if position = "WR" then 8
  else if position = "TE" then 6
  else if position = "K" then 8
  else if position = "DEF" then 8
  else 5

/-- Source: the script-bonus block inside applyFallback (ff-scoring.mjs
lines 142 to 152), which reads the raw home-relative spread. -/
def fallbackScriptBonus (position : String) (spread : Option ℚ) : ℚ :=
  if position = "QB" then (if optLt spread 0 then 1 else 0)
  else if position = "RB" then (if optLe spread (-4.5) then 1.5 else 0)
  else if position = "WR" ∨ position = "TE" then (if optGe spread 4.5 then 1 else 0)
  else 0

/-- Source: applyFallback (ff-scoring.mjs lines 128 to 155). The scoring
rules parameter is unused in the source body as well. -/
def applyFallback (position : String) (teamContext : Option GameContext)
    (scoringRules : ScoringRules) : ℚ :=
  let baseline := fallbackBaseline position
  match teamContext with
  | none => baseline
  | some ctx =>
    match ctx.implied_totals with
    | none => baseline
    | some its =>
      let itBonus := max 0 ((its.homeIT - 21) / 3)
      baseline + itBonus + fallbackScriptBonus position ctx.spread

/-- Source: expectedFantasyPoints (ff-scoring.mjs lines 54 to 96). Each
prop contributes only when JS-truthy (present and nonzero); an empty props
record routes to the fallback estimator. -/
def expectedFantasyPoints (props : PlayerProps) (scoringRules : ScoringRules)
    (position : String) (teamContext : Option GameContext) : ℚ :=
  if props.isEmpty then applyFallback position teamContext scoringRules
  else
    (if qTruthy props.pass_yds then (props.pass_yds.getD 0) * scoringRules.passYards else 0)
    + (if qTruthy props.pass_tds then (props.pass_tds.getD 0) * scoringRules.passTD else 0)
    + (if qTruthy props.interceptions then (props.interceptions.getD 0) * scoringRules.passInt else 0)
    + (if qTruthy props.rush_yds then (props.rush_yds.getD 0) * scoringRules.rushYards else 0)
    + (if qTruthy props.rec_yds then (props.rec_yds.getD 0) * scoringRules.recYards else 0)
    + (if qTruthy props.receptions then (props.receptions.getD 0) * scoringRules.reception else 0)
    + (if qTruthy props.anytime_td_prob then
        (props.anytime_td_prob.getD 0) *
          (if position = "WR" ∨ position = "TE" then scoringRules.recTD else scoringRules.rushTD)
      else 0)

/-- Source: CEILING_WEIGHTS[position] with the JS fallback of 0 for an
unmapped position (ff-scoring.mjs lines 27 to 34 and 107). -/
def ceilingWeight (position : String) : ℚ :=
  if position = "RB" then 0.8
  else if position = "TE" then 0.6
  else if position = "WR" then 0.35
  else 0

/-- Source: applyMultiTDBonus (ff-scoring.mjs lines 106 to 119). The
baseEFP parameter is unused in the source body as well. -/
def applyMultiTDBonus (baseEFP : ℚ) (props : PlayerProps)
    (scoringRules : ScoringRules) (position : String) : ℚ :=
  let weight := ceilingWeight position
  if weight = 0 ∨ ¬qTruthy props.two_plus_td_prob then 0
  else
    let tdValue :=
      if position = "WR" ∨ position = "TE" then scoringRules.recTD else scoringRules.rushTD
    (props.two_plus_td_prob.getD 0) * tdValue * weight

/-- Pass-lean and run-lean indicators. -/
structure ScriptFlags where
  passFlag : ℚ
  runFlag : ℚ
deriving DecidableEq

/-- Models calculateScriptLean from the odds library (passFlag and runFlag
stand for its passLean and runLean outputs): indicators computed from the
spread of the game re-signed for the given team; both 0 when the spread is
falsy or the implied totals are missing. -/
def scriptFlagsFor (context : GameContext) (team : String) (threshold : ℚ) : ScriptFlags :=
  if ¬qTruthy context.spread ∨ context.implied_totals = none then ⟨0, 0⟩
  else
    let s := context.spread.getD 0
    let teamSpread := if team = context.home_team then s else -s
    ⟨if teamSpread ≥ threshold then 1 else 0, if teamSpread ≤ -threshold then 1 else 0⟩

/-- Source: calculateScriptBonus (ff-scoring.mjs lines 212 to 230). Note
that the lean indicators are computed for context.home_team, not for the
team of the player being scored. -/
def calculateScriptBonus (position : String) (context : Option GameContext) : ℚ :=
  match context with
  | none => 0
  | some ctx =>
    if ¬qTruthy ctx.spread then 0
    else
      let flags := scriptFlagsFor ctx ctx.home_team 4.5
      if position = "RB" then 0.6 * flags.runFlag
      else if position = "WR" ∨ position = "TE" then 0.6 * flags.passFlag
      else if position = "QB" then (if optLt ctx.spread 0 then 0.4 else 0)
      else 0

/-- Source: calculateITBonus (ff-scoring.mjs lines 237 to 244), always
reading the home implied total. -/
def calculateITBonus (context : Option GameContext) : ℚ :=
  match context with
  | none => 0
  | some ctx =>
    match ctx.implied_totals with
    | none => 0
    | some its => (its.homeIT - 21) / 7

/-- Models the JS toUpperCase by mapping the character upcase over the
character list (the core library upcase is defined by position recursion,
which blocks kernel evaluation; the two agree on the status codes used
here). -/
def toUpperCase (s : String) : String := ⟨s.data.map Char.toUpper⟩

/-- Source: calculateInjuryPenalty (ff-scoring.mjs lines 251 to 261); the
empty string is JS-falsy and returns 0 at the guard. -/
def calculateInjuryPenalty (status : Option String) : ℚ :=
  match status with
  | none => 0
  | some st =>
    if st = "" then 0
    else
      let s := toUpperCase st
      if s = "Q" then -0.3
      else if s = "D" then -0.8
      else if s = "O" ∨ s = "IR" ∨ s = "PUP" ∨ s = "SUSP" then -999
      else 0

/-- Source: calculateZScore (ff-scoring.mjs lines 194 to 204), over the
reals because the source takes a square root. -/
noncomputable def calculateZScore (value : ℝ) (dataset : List ℝ) : ℝ :=
  if dataset.length = 0 then 0
  else
    let mean : ℝ := dataset.sum / (dataset.length : ℝ)
    let variance : ℝ := (dataset.map (fun v => (v - mean) ^ 2)).sum / (dataset.length : ℝ)
    let stdDev := Real.sqrt variance
    if stdDev = 0 then 0 else (value - mean) / stdDev

/-- One roster entry as read by the scoring pipeline. -/
structure RosterPlayer where
  name : String
  team : String
  position : String
  status : Option String
deriving DecidableEq

/-- The per-player record the run handler builds in its scoring loop. The
score and tier fields are unset at construction (JS undefined, modelled as
0 and the empty string) and filled in by the later stages. -/
structure ScoredPlayer where
  name : String
  team : String
  position : String
  status : Option String
  props : PlayerProps
  context : Option GameContext
  efp : ℚ
  ceiling_bonus : ℚ
  is_bye_week : Bool
  score : ℝ
  tier : String

/-- Source: getGameContext from the odds library: the first game line whose
home or away team matches. -/
def getGameContext (lines : List GameContext) (team : String) : Option GameContext :=
  lines.find? (fun game => game.home_team = team || game.away_team = team)

/-- Source: calculateSitStartScore (ff-scoring.mjs lines 166 to 186). The
scoringRules parameter is unused in the source body, and byePenalty is
literally 0 on both branches of the source conditional. -/
noncomputable def calculateSitStartScore (efp : ℚ) (context : Option GameContext)
    (player : ScoredPlayer) (scoringRules : ScoringRules)
    (allPlayers : List ScoredPlayer) : ℝ :=
  match context with
  | none => 0
  | some ctx =>
    let positionPlayers := allPlayers.filter (fun p => p.position = player.position)
    let zScore := calculateZScore (efp : ℝ) (positionPlayers.map (fun p => (p.efp : ℝ)))
    let scriptBonus := calculateScriptBonus player.position (some ctx)
    let itBonus := calculateITBonus (some ctx)
    let injuryPenalty := calculateInjuryPenalty player.status
    let byePenalty : ℝ := 0
    zScore + 0.35 * (scriptBonus : ℝ) + 0.25 * (itBonus : ℝ)
      + 0.20 * (injuryPenalty : ℝ) + byePenalty

/-- Source: the TIER_THRESHOLDS table applied top-down inside assignTiers
(ff-scoring.mjs lines 18 to 24 and 268 to 280). -/
noncomputable def tierOf (score : ℝ) : String :=
  if score ≥ 1.2 then "S"
  else if score ≥ 0.6 then "A"
  else if score ≥ -0.2 then "B"
  else if score ≥ -0.8 then "C"
  else "D"

/-- Source: assignTiers (ff-scoring.mjs lines 268 to 280): recomputes every
tier from the score field, overwriting any tier assigned earlier. -/
noncomputable def assignTiers (players : List ScoredPlayer) : List ScoredPlayer :=
  players.map (fun player => { player with tier := tierOf player.score })

/-- Source: step 8 of the run handler: per-player EFP plus ceiling bonus; a
player whose team has no game line is marked bye with zero EFP. -/
def buildScored (roster : List RosterPlayer) (lines : List GameContext)
    (allProps : String → Option PlayerProps) (scoringRules : ScoringRules) :
    List ScoredPlayer :=
  roster.map (fun player =>
    match getGameContext lines player.team with
    | none =>
      { name := player.name, team := player.team, position := player.position,
        status := player.status, props := {}, context := none, efp := 0,
        ceiling_bonus := 0, is_bye_week := true, score := 0, tier := "" }
    | some gameContext =>
      let props := (allProps player.name).getD {}
      let efp := expectedFantasyPoints props scoringRules player.position (some gameContext)
      let ceilingBonus := applyMultiTDBonus efp props scoringRules player.position
      { name := player.name, team := player.team, position := player.position,
        status := player.status, props := props, context := some gameContext,
        efp := efp + ceilingBonus, ceiling_bonus := ceilingBonus,
        is_bye_week := false, score := 0, tier := "" })

/-- Source: the score loop of the run handler: bye players are set to score
0 and tier BYE; every other player is scored against the cohort of all
non-bye players. -/
noncomputable def addScores (scoringRules : ScoringRules)
    (scoredPlayers : List ScoredPlayer) : List ScoredPlayer :=
  scoredPlayers.map (fun player =>
    if player.is_bye_week then { player with score := 0, tier := "BYE" }
    else
      { player with
        score := calculateSitStartScore player.efp player.context player scoringRules
          (scoredPlayers.filter (fun p => ¬p.is_bye_week)) })

/-- Source: the scoring pipeline of the run handler through tier
assignment: build the scored records, add scores, then assignTiers. -/
noncomputable def runPipeline (roster : List RosterPlayer) (lines : List GameContext)
    (allProps : String → Option PlayerProps) (scoringRules : ScoringRules) :
    List ScoredPlayer :=
  assignTiers (addScores scoringRules (buildScored roster lines allProps scoringRules))

/-- A scored player as consumed by the lineup assigner: the only fields
fillLineup and tryFlexSwaps read. Scores at this stage are compared
exactly, so an exact rational model keeps the functions executable. -/
structure LineupPlayer where
  name : String
  position : String
  score : ℚ
  slot : String
deriving DecidableEq

/-- Source: the greedy loop of fillLineup (ff-scoring.mjs lines 403 to 413)
over the already sorted list, carrying the filled tally. A position absent
from positionCounts has required count 0, matching the JS undefined
comparison, so such players always go to bench. -/
def fillGo (positionCounts : String → ℕ) :
    List LineupPlayer → (String → ℕ) → List LineupPlayer × List LineupPlayer
  | [], _ => ([], [])
  | player :: rest, filled =>
    let pos := player.position
    if filled pos < positionCounts pos then
      let result := fillGo positionCounts rest (fun q => if q = pos then filled q + 1 else filled q)
      ({ player with slot := pos } :: result.1, result.2)
    else
      let result := fillGo positionCounts rest filled
      (result.1, { player with slot := "BN" } :: result.2)

/-- Source: fillLineup (ff-scoring.mjs lines 390 to 416): stable sort by
score descending (the JS comparator b.score - a.score on a stable sort),
then greedy fill by literal position. -/
def fillLineup (scoredPlayers : List LineupPlayer) (positionCounts : String → ℕ) :
    List LineupPlayer × List LineupPlayer :=
  fillGo positionCounts
    (scoredPlayers.mergeSort (fun a b => decide (b.score ≤ a.score)))
    (fun _ => 0)

/-- A flex-swap suggestion; outName and inName model the out and in fields
of the source record, improvement the raw score difference. -/
structure SwapSuggestion where
  outName : String
  inName : String
  improvement : ℚ
deriving DecidableEq

/-- Source: tryFlexSwaps (ff-scoring.mjs lines 424 to 457): nested scan of
FLEX-slot starters against FLEX-eligible bench players, capped at 3. -/
def tryFlexSwaps (starters bench : List LineupPlayer) : List SwapSuggestion :=
  let flexEligible := fun (p : LineupPlayer) =>
    p.position = "RB" || p.position = "WR" || p.position = "TE"
  let flexStarters := starters.filter (fun p => flexEligible p && p.slot = "FLEX")
  let flexBench := bench.filter flexEligible
  let sortedStarters := flexStarters.mergeSort (fun a b => decide (a.score ≤ b.score))
  let sortedBench := flexBench.mergeSort (fun a b => decide (b.score ≤ a.score))
  (sortedBench.flatMap (fun benchPlayer =>
    sortedStarters.filterMap (fun starterPlayer =>
      if benchPlayer.score - starterPlayer.score > 1 then
        some ⟨starterPlayer.name, benchPlayer.name, benchPlayer.score - starterPlayer.score⟩
      else none))).take 3

/-- One Yahoo stat-category entry as read by getLeagueSettings: the inner
stat object may be missing, and its value may be missing (JS falsy, parsed
as 0). -/
structure StatInfo where
  stat_id : ℤ
  value : Option ℚ
deriving DecidableEq

/-- Wrapper matching the stat field access in getLeagueSettings. -/
structure StatCategory where
  stat : Option StatInfo
deriving DecidableEq

/-- League settings as read by getLeagueSettings: the stat-category list
may be absent. -/
structure LeagueSettings where
  stat_categories : Option (List StatCategory)
deriving DecidableEq

/-- Source: the hard-coded default scoring rules inside getLeagueSettings
(identical on the no-settings branch and as the pre-override record). -/
def defaultScoringRules : ScoringRules :=
  { passYards := 0.04, passTD := 4, passInt := -2, rushYards := 0.1, rushTD := 6,
    recYards := 0.1, reception := 0, recTD := 6, fumble := -2, twoPtConversion := 2 }

/-- Source: one step of the stat-category loop in getLeagueSettings,
overriding the default for the matching stat id. -/
def applyStatCategory (rules : ScoringRules) (cat : StatCategory) : ScoringRules :=
  match cat.stat with
  | none => rules
  | some si =>
    let v := si.value.getD 0
    if si.stat_id = 5 then { rules with passYards := v / 25 }
    else if si.stat_id = 4 then { rules with passTD := v }
    else if si.stat_id = 19 then { rules with passInt := v }
    else if si.stat_id = 9 then { rules with rushYards := v / 10 }
    else if si.stat_id = 10 then { rules with rushTD := v }
    else if si.stat_id = 12 then { rules with recYards := v / 10 }
    else if si.stat_id = 11 then { rules with reception := v }
    else if si.stat_id = 13 then { rules with recTD := v }
    else if si.stat_id = 18 then { rules with fumble := v }
    else if si.stat_id = 16 then { rules with twoPtConversion := v }
    else rules

/-- Source: the scoring-rules part of getLeagueSettings: missing settings
or missing stat categories silently yield the defaults; present categories
override the defaults field by field. No branch signals an error. -/
def leagueScoringRules (settings : Option LeagueSettings) : ScoringRules :=
  match settings with
  | none => defaultScoringRules
  | some s => ((s.stat_categories).getD []).foldl applyStatCategory defaultScoringRules

/-- Population mean of a dataset, following the wording of the spec. -/
noncomputable def popMean (dataset : List ℝ) : ℝ := dataset.sum / dataset.length

/-- Population variance of a dataset, following the wording of the spec. -/
noncomputable def popVariance (dataset : List ℝ) : ℝ :=
  (dataset.map (fun v => (v - popMean dataset) ^ 2)).sum / dataset.length

/-- Population standard deviation, following the wording of the spec. -/
noncomputable def popStdDev (dataset : List ℝ) : ℝ := Real.sqrt (popVariance dataset)

/-- Modelled from the words of the claim for the script bonus: the lean is
judged for the own team of the player, re-signing the home-relative
spread for away teams. -/
def scriptBonusSpec (position team : String) (ctx : GameContext) : ℚ :=
  match ctx.spread with
  | none => 0
  | some s =>
    let teamSpread := if team = ctx.home_team then s else -s
    if position = "RB" then (if teamSpread ≤ -4.5 then 0.6 else 0)
    else if position = "WR" ∨ position = "TE" then (if teamSpread ≥ 4.5 then 0.6 else 0)
    else if position = "QB" then (if teamSpread < 0 then 0.4 else 0)
    else 0

/-- Example props of the spec scenario for the weighted-sum claim. -/
def propsEx4 : PlayerProps :=
  { pass_yds := some 300, pass_tds := some 2, interceptions := some 1 }

/-- Example scoring rules of the spec scenario for the weighted-sum claim
(rushTD, fumble and two-point values are unspecified there and irrelevant). -/
def rulesEx4 : ScoringRules :=
  { passYards := 0.04, passTD := 4, passInt := -2, rushYards := 0, rushTD := 0,
    recYards := 0, reception := 1, recTD := 6, fumble := 0, twoPtConversion := 0 }

/-- Example game context of the fallback scenario: home favorite by 6 with
home implied total 24 (total 54). -/
def ctxEx5 : GameContext :=
  { home_team := "HOM", away_team := "AWY", spread := some (-6), total := some 54,
    implied_totals := some ⟨24, 30⟩ }

/-- Scoring rules with a negative receiving-TD value, exhibiting the
monotonicity failure of the ceiling bonus. -/
def rulesNeg7 : ScoringRules :=
  { passYards := 0, passTD := 0, passInt := 0, rushYards := 0, rushTD := 0,
    recYards := 0, reception := 0, recTD := -6, fumble := 0, twoPtConversion := 0 }

/-- Game context where the home team is a 6-point underdog, so the away
team is favored by 6; implied totals are present and consistent. -/
def ctxEx2 : GameContext :=
  { home_team := "HOM", away_team := "AWY", spread := some 6, total := some 45,
    implied_totals := some ⟨39 / 2, 51 / 2⟩ }

/-- Game context where the home team is favored by 5, for the script-bonus
witness. -/
def ctxEx2W : GameContext :=
  { home_team := "HOM", away_team := "AWY", spread := some (-5), total := some 45,
    implied_totals := some ⟨25, 20⟩ }

/-- Internally consistent game context with an enormous home implied total
(homeIT 5649 from total 11299 and spread +1): the implied-total bonus then
outweighs the Out penalty in the composite score. -/
def ctxEx3 : GameContext :=
  { home_team := "HOM", away_team := "AWY", spread := some 1, total := some 11299,
    implied_totals := some ⟨5649, 5650⟩ }

/-- A scored RB on the home team of ctxEx3 whose status is Out. -/
def playerEx3 : ScoredPlayer :=
  { name := "OutGuy", team := "HOM", position := "RB", status := some "O",
    props := {}, context := some ctxEx3, efp := 10, ceiling_bonus := 0,
    is_bye_week := false, score := 0, tier := "" }

/-- Game context with no spread and no implied totals, for the Out-tier
witness. -/
def ctxEx3W : GameContext :=
  { home_team := "HOM", away_team := "AWY", spread := none, total := none,
    implied_totals := none }

/-- A scored RB with status Out in the plain context ctxEx3W. -/
def playerEx3W : ScoredPlayer :=
  { name := "W", team := "HOM", position := "RB", status := some "O",
    props := {}, context := some ctxEx3W, efp := 5, ceiling_bonus := 0,
    is_bye_week := false, score := 0, tier := "" }

/-- Two scored RBs for the lineup witness. -/
def playersEx9 : List LineupPlayer :=
  [{ name := "A", position := "RB", score := 5, slot := "" },
   { name := "B", position := "RB", score := 3, slot := "" }]

/-- Slot requirements with one RB slot and one FLEX slot. -/
def countsEx9 : String → ℕ :=
  fun s => if s = "RB" then 1 else if s = "FLEX" then 1 else 0

/-- A one-player roster whose team has no game line that week. -/
def rosterEx1 : List RosterPlayer :=
  [{ name := "ByeGuy", team := "KC", position := "RB", status := none }]

/-- A one-QB roster for the settings-default run. -/
def rosterEx10 : List RosterPlayer :=
  [{ name := "QB1", team := "KC", position := "QB", status := none }]

/-- Game line for the settings-default run: home team favored by 3, home
implied total 24. -/
def lineEx10 : GameContext :=
  { home_team := "KC", away_team := "DEN", spread := some (-3), total := some 45,
    implied_totals := some ⟨24, 21⟩ }

/-- Props map for the settings-default run. -/
def propsEx10 : String → Option PlayerProps :=
  fun n =>
    if n = "QB1" then
      some { pass_yds := some 300, pass_tds := some 2, interceptions := some 1 }
    else none

end FantasyAI

namespace FantasyAI

/-- A JS-truthy-guarded contribution term always equals the getD-0 reading
times the weight: an absent field and a present zero both contribute 0. -/
theorem qTruthy_term (o : Option ℚ) (r : ℚ) :
    (if qTruthy o then (o.getD 0) * r else 0) = (o.getD 0) * r := by
  cases o with
  | none => simp [qTruthy]
  | some v =>
    by_cases hv : v = 0 <;> simp [qTruthy, hv]

/-- C4: for every non-empty props record, expectedFantasyPoints is the
weighted sum of the prop fields read as getD 0 (so every absent field
contributes zero) times the corresponding scoring weights, with the
anytime-TD probability weighted by recTD for WR and TE and by rushTD
otherwise. The witness instantiates the QB example of the spec, where the
sum is 18. -/
theorem claim4_efp_weighted_sum (props : PlayerProps) (scoringRules : ScoringRules)
    (position : String) (teamContext : Option GameContext)
    (h : ¬props.isEmpty) :
    expectedFantasyPoints props scoringRules position teamContext =
      (props.pass_yds.getD 0) * scoringRules.passYards
      + (props.pass_tds.getD 0) * scoringRules.passTD
      + (props.interceptions.getD 0) * scoringRules.passInt
      + (props.rush_yds.getD 0) * scoringRules.rushYards
      + (props.rec_yds.getD 0) * scoringRules.recYards
      + (props.receptions.getD 0) * scoringRules.reception
      + (props.anytime_td_prob.getD 0) *
          (if position = "WR" ∨ position = "TE" then scoringRules.recTD
           else scoringRules.rushTD) := by
  rw [expectedFantasyPoints, if_neg (by simpa using h)]
  rw [qTruthy_term, qTruthy_term, qTruthy_term, qTruthy_term, qTruthy_term,
    qTruthy_term, qTruthy_term]

/-- C4 witness: the spec example (QB, 300 passing yards, 2 passing TDs, 1
interception, standard-ish weights with full PPR) yields exactly 18. -/
theorem claim4_efp_weighted_sum_witness :
    ¬propsEx4.isEmpty ∧ expectedFantasyPoints propsEx4 rulesEx4 "QB" none = 18 := by
  refine ⟨by decide, ?_⟩
  rw [claim4_efp_weighted_sum propsEx4 rulesEx4 "QB" none (by decide)]
  norm_num [propsEx4, rulesEx4]

/-- C5: an empty props record routes the EFP estimate to the fallback
estimator; with no game context the fallback is exactly the fixed
positional baseline (QB 15, RB 10, WR 8, TE 6, K 8, DEF 8, any other
position 5); with a context that carries implied totals it is
baseline plus max 0 of (homeIT - 21) / 3 plus the fallback script bonus.
The witness instantiates the RB example of the spec, which yields 12.5. -/
theorem claim5_fallback_estimator (scoringRules : ScoringRules) :
    (∀ (props : PlayerProps) (pos : String) (ctx : Option GameContext),
      props.isEmpty → expectedFantasyPoints props scoringRules pos ctx
        = applyFallback pos ctx scoringRules)
    ∧ (applyFallback "QB" none scoringRules = 15
      ∧ applyFallback "RB" none scoringRules = 10
      ∧ applyFallback "WR" none scoringRules = 8
      ∧ applyFallback "TE" none scoringRules = 6
      ∧ applyFallback "K" none scoringRules = 8
      ∧ applyFallback "DEF" none scoringRules = 8)
    ∧ (∀ pos : String, pos ∉ (["QB", "RB", "WR", "TE", "K", "DEF"] : List String) →
        applyFallback pos none scoringRules = 5)
    ∧ (∀ (pos : String) (ctx : GameContext) (its : ImpliedTotals),
        ctx.implied_totals = some its →
        applyFallback pos (some ctx) scoringRules =
          fallbackBaseline pos + max 0 ((its.homeIT - 21) / 3)
            + fallbackScriptBonus pos ctx.spread) := by
  refine ⟨?_, ⟨rfl, rfl, rfl, rfl, rfl, rfl⟩, ?_, ?_⟩
  · intro props pos ctx h
    rw [expectedFantasyPoints, if_pos h]
  · intro pos h
    simp only [List.mem_cons, List.not_mem_nil, or_false, not_or] at h
    obtain ⟨h1, h2, h3, h4, h5, h6⟩ := h
    simp [applyFallback, fallbackBaseline, h1, h2, h3, h4, h5, h6]
  · intro pos ctx its h
    simp [applyFallback, h]

/-- C5 witness: an RB whose home team is favored by 6 with home implied
total 24 gets 10 + 1 + 1.5 = 12.5. -/
theorem claim5_fallback_estimator_witness :
    ctxEx5.implied_totals = some ⟨24, 30⟩
      ∧ applyFallback "RB" (some ctxEx5) defaultScoringRules = 12.5 := by
  refine ⟨rfl, ?_⟩
  rw [(claim5_fallback_estimator defaultScoringRules).2.2.2 "RB" ctxEx5 ⟨24, 30⟩ rfl]
  simp [ctxEx5, fallbackBaseline, fallbackScriptBonus, optLe, optLt]
  norm_num

/-- Evaluation of the multi-TD ceiling bonus when the probability field is
present: it always equals probability times TD value times position
weight, because a present zero probability is JS-falsy but contributes 0
through the product as well. -/
theorem applyMultiTDBonus_eval (baseEFP : ℚ) (props : PlayerProps)
    (scoringRules : ScoringRules) (position : String) (p : ℚ)
    (h : props.two_plus_td_prob = some p) :
    applyMultiTDBonus baseEFP props scoringRules position =
      p * (if position = "WR" ∨ position = "TE" then scoringRules.recTD
           else scoringRules.rushTD) * ceilingWeight position := by
  rw [applyMultiTDBonus]
  by_cases hw : ceilingWeight position = 0
  · simp [hw]
  · by_cases hp : p = 0
    · simp [h, hp, qTruthy]
    · simp [h, hp, qTruthy, hw]

/-- C7 (amended): the ceiling bonus equals twoPlusTDProbability times the
TD value (recTD for WR and TE, rushTD otherwise) times the position weight
(RB 0.8, TE 0.6, WR 0.35); it is 0 when the probability field is absent or
the position weight is 0, hence identically 0 for QB, K and DEF; and for a
present probability it is monotone non-decreasing in the probability
provided the applicable TD value is nonnegative (the nonnegativity proviso
is what the counterexample forces). -/
theorem claim7_ceiling_bonus :
    (∀ (b : ℚ) (props : PlayerProps) (rules : ScoringRules),
      applyMultiTDBonus b props rules "QB" = 0
        ∧ applyMultiTDBonus b props rules "K" = 0
        ∧ applyMultiTDBonus b props rules "DEF" = 0)
    ∧ (∀ (b : ℚ) (props : PlayerProps) (rules : ScoringRules) (pos : String),
        props.two_plus_td_prob = none → applyMultiTDBonus b props rules pos = 0)
    ∧ (∀ (b : ℚ) (props : PlayerProps) (rules : ScoringRules) (pos : String),
        ceilingWeight pos = 0 → applyMultiTDBonus b props rules pos = 0)
    ∧ (∀ (b : ℚ) (props : PlayerProps) (rules : ScoringRules) (p : ℚ),
        props.two_plus_td_prob = some p →
        applyMultiTDBonus b props rules "RB" = p * rules.rushTD * 0.8
          ∧ applyMultiTDBonus b props rules "TE" = p * rules.recTD * 0.6
          ∧ applyMultiTDBonus b props rules "WR" = p * rules.recTD * 0.35)
    ∧ (∀ (b : ℚ) (props1 props2 : PlayerProps) (rules : ScoringRules) (pos : String)
        (p1 p2 : ℚ),
        props1.two_plus_td_prob = some p1 → props2.two_plus_td_prob = some p2 →
        p1 ≤ p2 →
        0 ≤ (if pos = "WR" ∨ pos = "TE" then rules.recTD else rules.rushTD) →
        applyMultiTDBonus b props1 rules pos ≤ applyMultiTDBonus b props2 rules pos) := by
  refine ⟨?_, ?_, ?_, ?_, ?_⟩
  · intro b props rules
    refine ⟨?_, ?_, ?_⟩ <;> simp [applyMultiTDBonus, ceilingWeight]
  · intro b props rules pos h
    simp [applyMultiTDBonus, h, qTruthy]
  · intro b props rules pos h
    simp [applyMultiTDBonus, h]
  · intro b props rules p h
    refine ⟨?_, ?_, ?_⟩ <;>
      rw [applyMultiTDBonus_eval b _ rules _ p h] <;>
        simp [ceilingWeight]
  · intro b props1 props2 rules pos p1 p2 h1 h2 hle htd
    rw [applyMultiTDBonus_eval b props1 rules pos p1 h1,
      applyMultiTDBonus_eval b props2 rules pos p2 h2]
    have hw : 0 ≤ ceilingWeight pos := by
      unfold ceilingWeight
      split_ifs <;> norm_num
    have := mul_nonneg htd hw
    nlinarith [this, mul_le_mul_of_nonneg_right hle this]

/-- C7 counterexample: with a negative receiving-TD value, raising the
two-plus-TD probability from 0.1 to 0.2 lowers the WR ceiling bonus from
-0.21 to -0.42, so as stated (for every scoring-rules record) the bonus is
not monotone non-decreasing in the probability. -/
theorem claim7_ceiling_bonus_counterexample :
    (0.1 : ℚ) ≤ 0.2
      ∧ applyMultiTDBonus 0 { two_plus_td_prob := some 0.1 } rulesNeg7 "WR" = -0.21
      ∧ applyMultiTDBonus 0 { two_plus_td_prob := some 0.2 } rulesNeg7 "WR" = -0.42
      ∧ ¬(applyMultiTDBonus 0 { two_plus_td_prob := some 0.1 } rulesNeg7 "WR"
            ≤ applyMultiTDBonus 0 { two_plus_td_prob := some 0.2 } rulesNeg7 "WR") := by
  refine ⟨by norm_num, ?_, ?_, ?_⟩ <;>
    simp [applyMultiTDBonus, rulesNeg7, ceilingWeight, qTruthy] <;> norm_num

/-- C7 witness: an RB with two-plus-TD probability 0.25 under a
nonnegative rushing-TD value of 6 gets bonus 0.25 * 6 * 0.8 = 1.2, and the
monotonicity instance from 0.1 to 0.25 holds. -/
theorem claim7_ceiling_bonus_witness :
    applyMultiTDBonus 0 { two_plus_td_prob := some 0.25 } defaultScoringRules "RB" = 1.2
      ∧ applyMultiTDBonus 0 { two_plus_td_prob := some 0.1 } defaultScoringRules "RB"
          ≤ applyMultiTDBonus 0 { two_plus_td_prob := some 0.25 } defaultScoringRules "RB" := by
  constructor
  · rw [(claim7_ceiling_bonus.2.2.2.1 0 { two_plus_td_prob := some 0.25 }
      defaultScoringRules 0.25 rfl).1]
    norm_num [defaultScoringRules]
  · exact claim7_ceiling_bonus.2.2.2.2 0 _ _ defaultScoringRules "RB" 0.1 0.25 rfl rfl
      (by norm_num) (by norm_num [defaultScoringRules])

/-- C2 counterexample: an RB on the away team that is favored by 6 (home
spread +6). Judged for the own team of the player, as the claim states,
the bonus would be 0.6; the source computes the lean for the home team
(calculateScriptBonus passes context.home_team to calculateScriptLean), so
the actual bonus is 0. -/
theorem claim2_script_bonus_counterexample :
    calculateScriptBonus "RB" (some ctxEx2) = 0
      ∧ scriptBonusSpec "RB" "AWY" ctxEx2 = 0.6
      ∧ calculateScriptBonus "RB" (some ctxEx2) ≠ scriptBonusSpec "RB" "AWY" ctxEx2 := by
  refine ⟨?_, ?_, ?_⟩ <;>
    simp [calculateScriptBonus, scriptBonusSpec, scriptFlagsFor, ctxEx2, qTruthy, optLt] <;>
      norm_num

/-- C2 (amended): the composite-score script bonus is judged from the
perspective of the home team regardless of the team of the player. With a
present spread s (signed relative to the home team) and present implied
totals, an RB gets 0.6 when s ≤ -4.5 (home favored by at least 4.5), a WR
or TE gets 0.6 when s ≥ 4.5 (home underdog by at least 4.5), a QB gets 0.4
when s < 0 (home favored), and every other position gets 0. -/
theorem claim2_script_bonus_home_relative (position : String) (ctx : GameContext)
    (s : ℚ) (its : ImpliedTotals)
    (hs : ctx.spread = some s) (hit : ctx.implied_totals = some its) :
    calculateScriptBonus position (some ctx) =
      if position = "RB" then (if s ≤ -4.5 then 0.6 else 0)
      else if position = "WR" ∨ position = "TE" then (if s ≥ 4.5 then 0.6 else 0)
      else if position = "QB" then (if s < 0 then 0.4 else 0)
      else 0 := by
  by_cases h0 : s = 0
  · subst h0
    simp only [calculateScriptBonus, hs, qTruthy]
    have : ¬((0 : ℚ) ≤ -4.5) := by norm_num
    have : ¬((4.5 : ℚ) ≤ 0) := by norm_num
    have : ¬((0 : ℚ) < 0) := by norm_num
    split_ifs <;> simp_all
  · simp only [calculateScriptBonus, hs, qTruthy, scriptFlagsFor, hit, optLt]
    simp only [bne_iff_ne, ne_eq, h0, not_false_eq_true, Option.getD_some]
    split_ifs <;> simp_all

/-- C2 witness: an RB whose home team is favored by 5 gets script bonus
0.6. -/
theorem claim2_script_bonus_witness :
    ctxEx2W.spread = some (-5)
      ∧ calculateScriptBonus "RB" (some ctxEx2W) = 0.6 := by
  refine ⟨rfl, ?_⟩
  rw [claim2_script_bonus_home_relative "RB" ctxEx2W (-5) ⟨25, 20⟩ rfl rfl]
  norm_num

/-- C3 (amended): the injury penalty is -0.3 for status Q (Questionable),
-0.8 for D (Doubtful), -999 for O, IR, PUP or SUSP (Out, injured reserve,
PUP or Suspended), case-insensitively, and 0 otherwise; and a player with
status O and a non-null game context lands at tier D provided the z-score
plus 0.35 times the script bonus plus 0.25 times the implied-total bonus
stays below 199 (the proviso the counterexample forces: the weighted Out
penalty is 0.20 * -999 = -199.8, and tier D means score below -0.8). -/
theorem claim3_injury_penalty_out_tier :
    (calculateInjuryPenalty none = 0)
    ∧ (∀ st : String,
        (toUpperCase st = "Q" → calculateInjuryPenalty (some st) = -0.3)
        ∧ (toUpperCase st = "D" → calculateInjuryPenalty (some st) = -0.8)
        ∧ (toUpperCase st = "O" ∨ toUpperCase st = "IR" ∨ toUpperCase st = "PUP" ∨ toUpperCase st = "SUSP" →
            calculateInjuryPenalty (some st) = -999)
        ∧ (toUpperCase st ≠ "Q" → toUpperCase st ≠ "D" → toUpperCase st ≠ "O" → toUpperCase st ≠ "IR" →
            toUpperCase st ≠ "PUP" → toUpperCase st ≠ "SUSP" → calculateInjuryPenalty (some st) = 0))
    ∧ (∀ (efp : ℚ) (ctx : GameContext) (player : ScoredPlayer) (rules : ScoringRules)
        (cohort : List ScoredPlayer),
        player.status = some "O" →
        calculateZScore (efp : ℝ)
            ((cohort.filter (fun p => p.position = player.position)).map
              (fun p => (p.efp : ℝ)))
          + 0.35 * ((calculateScriptBonus player.position (some ctx) : ℚ) : ℝ)
          + 0.25 * ((calculateITBonus (some ctx) : ℚ) : ℝ) < 199 →
        tierOf (calculateSitStartScore efp (some ctx) player rules cohort) = "D") := by
  refine ⟨rfl, ?_, ?_⟩
  · intro st
    refine ⟨?_, ?_, ?_, ?_⟩
    · intro h
      have hne : st ≠ "" := by
        intro he
        rw [he] at h
        exact absurd h (by decide)
      simp [calculateInjuryPenalty, hne, h]
    · intro h
      have hne : st ≠ "" := by
        intro he
        rw [he] at h
        exact absurd h (by decide)
      simp [calculateInjuryPenalty, hne, h]
    · intro h
      have hne : st ≠ "" := by
        intro he
        rw [he] at h
        revert h
        decide
      rcases h with h | h | h | h <;> simp [calculateInjuryPenalty, hne, h]
    · intro h1 h2 h3 h4 h5 h6
      by_cases hne : st = ""
      · simp [calculateInjuryPenalty, hne]
      · simp [calculateInjuryPenalty, hne, h1, h2, h3, h4, h5, h6]
  · intro efp ctx player rules cohort hst hlt
    simp only [calculateSitStartScore]
    rw [hst]
    have hpen : calculateInjuryPenalty (some "O") = -999 := by decide
    rw [hpen]
    rw [tierOf]
    split_ifs with h1 h2 h3 h4
    · exact absurd h1 (by push_cast; linarith)
    · exact absurd h2 (by push_cast; linarith)
    · exact absurd h3 (by push_cast; linarith)
    · exact absurd h4 (by push_cast; linarith)
    · rfl

/-- C3 counterexample: an Out RB with a non-null game context whose home
implied total is 5649 scores exactly 0 + 0 + 0.25 * 804 - 199.8 = 1.2 and
is classified at tier S, not tier D, so the unconditional claim fails. -/
theorem claim3_out_tier_counterexample :
    playerEx3.status = some "O"
      ∧ playerEx3.context = some ctxEx3
      ∧ tierOf (calculateSitStartScore playerEx3.efp (some ctxEx3) playerEx3
          defaultScoringRules [playerEx3]) = "S" := by
  refine ⟨rfl, rfl, ?_⟩
  have hscript : calculateScriptBonus "RB" (some ctxEx3) = 0 := by
    simp [calculateScriptBonus, scriptFlagsFor, ctxEx3, qTruthy]
    norm_num
  have hit : calculateITBonus (some ctxEx3) = 804 := by
    simp [calculateITBonus, ctxEx3]
    norm_num
  have hpen : calculateInjuryPenalty (some "O") = -999 := by decide
  simp only [calculateSitStartScore, playerEx3]
  rw [hscript, hit, hpen]
  norm_num [calculateZScore, tierOf, Real.sqrt_zero]

/-- Sum of a constant shift over a list. -/
theorem sum_map_sub_const (l : List ℝ) (m : ℝ) :
    (l.map (fun x => x - m)).sum = l.sum - l.length * m := by
  induction l with
  | nil => simp
  | cons a t ih =>
    simp only [List.map_cons, List.sum_cons, ih, List.length_cons]
    push_cast
    ring

/-- A list of squared deviations has positive sum as soon as one member
deviates. -/
theorem sum_sq_dev_pos (l : List ℝ) (m x : ℝ) (hx : x ∈ l) (hne : x ≠ m) :
    0 < (l.map (fun v => (v - m) ^ 2)).sum := by
  have h1 : (x - m) ^ 2 ≤ (l.map (fun v => (v - m) ^ 2)).sum := by
    apply List.single_le_sum
    · intro y hy
      obtain ⟨v, _, rfl⟩ := List.mem_map.mp hy
      positivity
    · exact List.mem_map_of_mem _ hx
  have hne' : x - m ≠ 0 := sub_ne_zero.mpr hne
  have h2 : 0 < (x - m) ^ 2 := by positivity
  linarith

/-- C6: the source z-score is exactly the population z-score of the spec,
with the zero-standard-deviation guard (which also covers the empty and
singleton cohorts); and over any cohort with at least two distinct values
the mean of the member z-scores is 0. -/
theorem claim6_zscore_population :
    (∀ (value : ℝ) (dataset : List ℝ),
      calculateZScore value dataset =
        if popStdDev dataset = 0 then 0
        else (value - popMean dataset) / popStdDev dataset)
    ∧ (∀ dataset : List ℝ,
        (∃ a ∈ dataset, ∃ b ∈ dataset, a ≠ b) →
        (dataset.map (fun x => calculateZScore x dataset)).sum / dataset.length = 0) := by
  constructor
  · intro v ds
    by_cases h : ds.length = 0
    · obtain rfl : ds = [] := List.length_eq_zero.mp h
      simp [calculateZScore, popStdDev, popVariance, popMean]
    · simp only [calculateZScore, if_neg h]
      rfl
  · intro ds hex
    obtain ⟨a, ha, b, hb, hab⟩ := hex
    have hlen : ds.length ≠ 0 := by
      intro h
      obtain rfl : ds = [] := List.length_eq_zero.mp h
      simp at ha
    have hnpos : (0 : ℝ) < ds.length := by
      have := Nat.pos_of_ne_zero hlen
      exact_mod_cast this
    have hxm : ∃ x ∈ ds, x ≠ ds.sum / (ds.length : ℝ) := by
      by_contra hc
      push_neg at hc
      exact hab ((hc a ha).trans (hc b hb).symm)
    obtain ⟨x, hx, hxne⟩ := hxm
    have hvarpos :
        0 < (ds.map (fun v => (v - ds.sum / (ds.length : ℝ)) ^ 2)).sum / (ds.length : ℝ) :=
      div_pos (sum_sq_dev_pos ds _ x hx hxne) hnpos
    have hstd :
        Real.sqrt ((ds.map (fun v => (v - ds.sum / (ds.length : ℝ)) ^ 2)).sum / (ds.length : ℝ))
          ≠ 0 := ne_of_gt (Real.sqrt_pos.mpr hvarpos)
    have hzeq : ∀ y : ℝ, calculateZScore y ds =
        (y - ds.sum / (ds.length : ℝ)) *
          (Real.sqrt ((ds.map (fun v => (v - ds.sum / (ds.length : ℝ)) ^ 2)).sum /
            (ds.length : ℝ)))⁻¹ := by
      intro y
      simp only [calculateZScore, if_neg hlen, if_neg hstd]
      rw [div_eq_mul_inv]
    rw [List.map_congr_left (fun y _ => hzeq y), List.sum_map_mul_right,
      sum_map_sub_const]
    have hc : ds.sum - (ds.length : ℝ) * (ds.sum / (ds.length : ℝ)) = 0 := by
      field_simp
    rw [hc, zero_mul, zero_div]

/-- C6 witness: the two-element cohort with values 0 and 2 has two
distinct members, and the mean of its z-scores is 0. -/
theorem claim6_zscore_population_witness :
    (∃ a ∈ ([0, 2] : List ℝ), ∃ b ∈ ([0, 2] : List ℝ), a ≠ b)
      ∧ (([0, 2] : List ℝ).map (fun x => calculateZScore x [0, 2])).sum /
          (([0, 2] : List ℝ).length) = 0 := by
  have hex : ∃ a ∈ ([0, 2] : List ℝ), ∃ b ∈ ([0, 2] : List ℝ), a ≠ b :=
    ⟨0, by simp, 2, by simp, by norm_num⟩
  exact ⟨hex, claim6_zscore_population.2 [0, 2] hex⟩

/-- C3 witness: an Out RB in a context with no spread and no implied
totals (all modifiers 0, empty cohort) lands at tier D. -/
theorem claim3_out_tier_witness :
    playerEx3W.status = some "O"
      ∧ tierOf (calculateSitStartScore 5 (some ctxEx3W) playerEx3W
          defaultScoringRules []) = "D" := by
  refine ⟨rfl, ?_⟩
  apply claim3_injury_penalty_out_tier.2.2 5 ctxEx3W playerEx3W defaultScoringRules [] rfl
  have hz : calculateZScore ((5 : ℚ) : ℝ)
      (([] : List ScoredPlayer).map (fun p => (p.efp : ℝ))) = 0 := by
    simp [calculateZScore]
  simp only [List.filter_nil] at hz ⊢
  rw [hz]
  have hscript : calculateScriptBonus playerEx3W.position (some ctxEx3W) = 0 := by
    simp [calculateScriptBonus, ctxEx3W, qTruthy]
  have hit : calculateITBonus (some ctxEx3W) = 0 := by
    simp [calculateITBonus, ctxEx3W]
  rw [hscript, hit]
  norm_num

/-- The greedy fill partitions the input: starters plus bench count every
player exactly once. -/
theorem fillGo_length (positionCounts : String → ℕ) (l : List LineupPlayer)
    (filled : String → ℕ) :
    (fillGo positionCounts l filled).1.length + (fillGo positionCounts l filled).2.length
      = l.length := by
  induction l generalizing filled with
  | nil => simp [fillGo]
  | cons p rest ih =>
    by_cases h : filled p.position < positionCounts p.position
    · simp only [fillGo, if_pos h, List.length_cons]
      have := ih (fun q => if q = p.position then filled q + 1 else filled q)
      omega
    · simp only [fillGo, if_neg h, List.length_cons]
      have := ih filled
      omega

/-- The greedy fill never starts more than the remaining capacity of a
position slot. -/
theorem fillGo_starters_count (positionCounts : String → ℕ) (l : List LineupPlayer)
    (filled : String → ℕ) (pos : String) :
    ((fillGo positionCounts l filled).1.filter (fun p => p.position = pos)).length
      ≤ positionCounts pos - filled pos := by
  induction l generalizing filled with
  | nil => simp [fillGo]
  | cons p rest ih =>
    by_cases h : filled p.position < positionCounts p.position
    · by_cases hp : p.position = pos
      · subst hp
        have hih := ih (fun q => if q = p.position then filled q + 1 else filled q)
        simp only [eq_self_iff_true, if_true] at hih
        simp only [fillGo, if_pos h, List.filter_cons, decide_eq_true_eq,
          eq_self_iff_true, if_true, List.length_cons]
        omega
      · have hih := ih (fun q => if q = p.position then filled q + 1 else filled q)
        have hb : (if pos = p.position then filled pos + 1 else filled pos) = filled pos :=
          if_neg (fun hh => hp hh.symm)
        simp only [hb] at hih
        simp only [fillGo, if_pos h, List.filter_cons, decide_eq_true_eq]
        rw [if_neg hp]
        exact hih
    · simp only [fillGo, if_neg h]
      exact ih filled

/-- Every starter produced by the greedy fill carries its own position as
its slot label. -/
theorem fillGo_starters_slot (positionCounts : String → ℕ) (l : List LineupPlayer)
    (filled : String → ℕ) :
    ∀ q ∈ (fillGo positionCounts l filled).1, q.slot = q.position := by
  induction l generalizing filled with
  | nil => simp [fillGo]
  | cons p rest ih =>
    intro q hq
    by_cases h : filled p.position < positionCounts p.position
    · simp only [fillGo, if_pos h, List.mem_cons] at hq
      rcases hq with rfl | hq
      · rfl
      · exact ih _ q hq
    · simp only [fillGo, if_neg h] at hq
      exact ih filled q hq

/-- C8: fillLineup sorts by score descending with a stable merge sort
(ties keep input order) and greedily fills by literal position, and its
output satisfies the round-trip invariants: for every position the number
of starters at that position never exceeds the supplied count, and
starters plus bench exactly partition the input. -/
theorem claim8_filllineup_invariants (scoredPlayers : List LineupPlayer)
    (positionCounts : String → ℕ) :
    (∀ pos : String,
      ((fillLineup scoredPlayers positionCounts).1.filter
        (fun p => p.position = pos)).length ≤ positionCounts pos)
    ∧ (fillLineup scoredPlayers positionCounts).1.length
        + (fillLineup scoredPlayers positionCounts).2.length = scoredPlayers.length := by
  constructor
  · intro pos
    have h := fillGo_starters_count positionCounts
      (scoredPlayers.mergeSort (fun a b => decide (b.score ≤ a.score))) (fun _ => 0) pos
    simp only [fillLineup]
    exact h.trans (Nat.sub_le _ _)
  · have h := fillGo_length positionCounts
      (scoredPlayers.mergeSort (fun a b => decide (b.score ≤ a.score))) (fun _ => 0)
    simp only [fillLineup]
    rw [h, List.length_mergeSort]

/-- C9: fillLineup never assigns the FLEX label (every starter slot is the
literal position of the player), even when the requirement map has FLEX
capacity, and consequently tryFlexSwaps on its output is always empty. -/
theorem claim9_no_flex_assignment (scoredPlayers : List LineupPlayer)
    (positionCounts : String → ℕ) (hflex : 0 < positionCounts "FLEX") :
    (∀ q ∈ (fillLineup scoredPlayers positionCounts).1, q.slot = q.position)
    ∧ tryFlexSwaps (fillLineup scoredPlayers positionCounts).1
        (fillLineup scoredPlayers positionCounts).2 = [] := by
  have hslots : ∀ q ∈ (fillLineup scoredPlayers positionCounts).1, q.slot = q.position := by
    intro q hq
    exact fillGo_starters_slot positionCounts _ _ q hq
  refine ⟨hslots, ?_⟩
  have hempty : (fillLineup scoredPlayers positionCounts).1.filter
      (fun p => (p.position = "RB" || p.position = "WR" || p.position = "TE")
        && p.slot = "FLEX") = [] := by
    rw [List.filter_eq_nil_iff]
    intro q hq
    have hs := hslots q hq
    simp only [Bool.and_eq_true, Bool.or_eq_true, decide_eq_true_eq, not_and]
    rintro (⟨hpos | hpos⟩ | hpos) <;> rw [hs, hpos] <;> decide
  simp only [tryFlexSwaps, hempty, List.mergeSort_nil, List.filterMap_nil]
  have hconst : ∀ (l : List LineupPlayer),
      (l.flatMap (fun _ => ([] : List SwapSuggestion))) = [] := by
    intro l
    induction l with
    | nil => rfl
    | cons a t ih => simp [List.flatMap_cons, ih]
  rw [hconst, List.take_nil]

/-- C9 witness: with one RB slot and one FLEX slot and two scored RBs, the
better RB starts in the RB slot, nobody is labelled FLEX, and no swap is
suggested. -/
theorem claim9_no_flex_assignment_witness :
    0 < countsEx9 "FLEX"
      ∧ ((∀ q ∈ (fillLineup playersEx9 countsEx9).1, q.slot = q.position)
        ∧ tryFlexSwaps (fillLineup playersEx9 countsEx9).1
            (fillLineup playersEx9 countsEx9).2 = []) :=
  ⟨by decide, claim9_no_flex_assignment playersEx9 countsEx9 (by decide)⟩

/-- C1: a roster player whose team has no game line is marked bye and gets
efp 0 and score 0, and is excluded from every z-score cohort (the non-bye
filter leaves nothing), and the score loop does set tier BYE; but the
final output tier is B, not BYE, because assignTiers afterwards recomputes
every tier from the score (0 lands in the B band at cutoff -0.2),
overwriting the BYE the handler had just assigned. -/
theorem claim1_bye_tier_overwritten :
    ((addScores defaultScoringRules
        (buildScored rosterEx1 [] (fun _ => none) defaultScoringRules)).map
      (fun p => p.tier) = ["BYE"])
    ∧ ((runPipeline rosterEx1 [] (fun _ => none) defaultScoringRules).map
        (fun p => (p.efp, p.score, p.tier)) = [((0 : ℚ), (0 : ℝ), "B")])
    ∧ ((buildScored rosterEx1 [] (fun _ => none) defaultScoringRules).filter
        (fun p => ¬p.is_bye_week)).length = 0 := by
  refine ⟨?_, ?_, ?_⟩
  · simp [addScores, buildScored, rosterEx1, getGameContext]
  · simp only [runPipeline]
    norm_num [assignTiers, addScores, buildScored, rosterEx1, getGameContext, tierOf]
  · simp [buildScored, rosterEx1, getGameContext]

/-- C10 (amended): the core never rejects scoring configuration. A missing
settings record and a missing stat-category list both silently yield the
hard-coded default scoring rules, and the scoring pipeline is total: it
emits exactly one scored record per roster player for every input, so no
input condition (missing props, missing game context, zero-variance
cohort, or missing scoring fields) propagates a failure. -/
theorem claim10_silent_defaults :
    leagueScoringRules none = defaultScoringRules
    ∧ (∀ s : LeagueSettings, s.stat_categories = none →
        leagueScoringRules (some s) = defaultScoringRules)
    ∧ (∀ (settings : Option LeagueSettings) (roster : List RosterPlayer)
        (lines : List GameContext) (allProps : String → Option PlayerProps),
        (runPipeline roster lines allProps (leagueScoringRules settings)).length
          = roster.length) := by
  refine ⟨rfl, ?_, ?_⟩
  · intro s h
    simp [leagueScoringRules, h]
  · intro settings roster lines allProps
    simp [runPipeline, assignTiers, addScores, buildScored]

/-- C10 witness: a settings record without stat categories yields the
defaults, and a run over a one-player roster emits one record. -/
theorem claim10_silent_defaults_witness :
    leagueScoringRules (some ⟨none⟩) = defaultScoringRules
      ∧ (runPipeline rosterEx10 [] (fun _ => none) (leagueScoringRules none)).length = 1 := by
  constructor
  · exact claim10_silent_defaults.2.1 ⟨none⟩ rfl
  · rw [claim10_silent_defaults.2.2 none rosterEx10 [] (fun _ => none)]
    rfl

/-- C10 counterexample: with the settings record entirely absent (the
malformed-configuration case of the claim), the pipeline does not reject:
the settings layer substitutes the hard-coded defaults and the run
produces a fully scored output (efp 18, score 173/700, tier B) for a QB
with props, so no failure is propagated and the defaulting is silent. -/
theorem claim10_silent_defaults_counterexample :
    leagueScoringRules none = defaultScoringRules
      ∧ (runPipeline rosterEx10 [lineEx10] propsEx10 (leagueScoringRules none)).map
          (fun p => (p.efp, p.score, p.tier)) = [((18 : ℚ), ((173 : ℝ) / 700), "B")] := by
  refine ⟨rfl, ?_⟩
  simp only [runPipeline]
  norm_num [assignTiers, addScores, buildScored, rosterEx10, lineEx10, propsEx10,
    getGameContext, expectedFantasyPoints, PlayerProps.isEmpty, applyMultiTDBonus,
    ceilingWeight, qTruthy, calculateSitStartScore, calculateZScore,
    calculateScriptBonus, scriptFlagsFor, calculateITBonus, calculateInjuryPenalty,
    optLt, tierOf, defaultScoringRules, leagueScoringRules, Real.sqrt_zero]
  refine ⟨fun h1 _ _ => absurd h1 (by simp), ?_, ?_⟩ <;> simp <;> norm_num

end FantasyAI
